import Mathlib

/-!
Verification development for the `ipcheckinfo` page script (`script.js`).

The script's computational content is shallowly embedded below:
JavaScript values appearing in the data flows are modelled by `JSVal`
(numbers as exact rationals `ℚ`), fallible steps (network fetches, JSON
parsing, property access on `null`/`undefined`, parser-thrown errors)
return `Except`/`Option`, and the DOM cells written by the fetch
functions are modelled as explicit record states.  Each embedded
definition is annotated with the source function it translates.
-/

set_option maxHeartbeats 1000000

/-- JavaScript value appearing in the page's data flows: `undefined`, `null`,
booleans, numbers (modelled as exact rationals), strings, arrays and plain
objects (association lists of fields). -/
inductive JSVal where
  | undef
  | null
  | bool (b : Bool)
  | num (q : ℚ)
  | str (s : String)
  | arr (elems : List JSVal)
  | obj (fields : List (String × JSVal))

/-- Truthiness of a JavaScript value (`!v` in the source negates this):
`undefined`, `null`, `false`, `0`, and the empty string are falsy; arrays and
objects are always truthy. -/
def jsFalsy : JSVal → Bool
  | .undef => true
  | .null => true
  | .bool b => !b
  | .num q => decide (q = 0)
  | .str s => decide (s = "")
  | .arr _ => false
  | .obj _ => false

/-- The JavaScript `a || b` operator: `b` when `a` is falsy, otherwise `a`. -/
def jsOr (a b : JSVal) : JSVal :=
  if jsFalsy a then b else a

/-- Strict equality test against the string sentinel `'未知'`
(the `score === '未知'` comparison in `calculateAbuseScore`). -/
def isUnknownStr : JSVal → Bool
  | .str s => decide (s = "未知")
  | _ => false

/-- Strict equality test against the number `0`
(the `data.code === 0` comparison in the speedtest parser). -/
def isNum0 : JSVal → Bool
  | .num q => decide (q = 0)
  | _ => false

/-- Strict equality test against the string `'ok'`
(the `data.ret === 'ok'` comparison in the ipip.net parser). -/
def isStrOk : JSVal → Bool
  | .str s => decide (s = "ok")
  | _ => false

/-- Strict equality test against boolean `true`
(the `flag === true` filter in `calculateAbuseScore`). -/
def strictTrue : JSVal → Bool
  | .bool b => b
  | _ => false

/-- Leading run of decimal digits of a character list, together with the rest.
Models the digit scan of the JS `parseFloat` builtin. -/
def takeDigits : List Char → List Char × List Char
  | [] => ([], [])
  | c :: cs =>
    if c.isDigit then (c :: (takeDigits cs).1, (takeDigits cs).2)
    else ([], c :: cs)

/-- Decimal digits accumulated into a natural number. -/
def digitsToNat (ds : List Char) : Nat :=
  ds.foldl (fun acc c => acc * 10 + (c.toNat - 48)) 0

/-- Modelled builtin: JS `parseFloat` on a character list — skip leading
whitespace, optional sign, then an integer part and an optional fractional
part; `none` models the `NaN` result when no digit is found.  (Exponent
notation and `Infinity`, never produced by the page's data sources, are
modelled as non-numeric.) -/
def parseFloatChars (cs : List Char) : Option ℚ :=
  let cs1 := cs.dropWhile (fun c => c == ' ' || c == '\t' || c == '\n' || c == '\r')
  let signRest : ℚ × List Char :=
    match cs1 with
    | '-' :: rest => (-1, rest)
    | '+' :: rest => (1, rest)
    | _ => (1, cs1)
  let intPart := takeDigits signRest.2
  let fracPart :=
    match intPart.2 with
    | '.' :: rest => takeDigits rest
    | _ => ([], intPart.2)
  if intPart.1.isEmpty && fracPart.1.isEmpty then none
  else
    some (signRest.1 *
      ((digitsToNat intPart.1 : ℚ) + (digitsToNat fracPart.1 : ℚ) / (10 : ℚ) ^ fracPart.1.length))

/-- Modelled builtin: JS `parseFloat` on a string. -/
def parseFloatStr (s : String) : Option ℚ :=
  parseFloatChars s.data

/-- Modelled builtin: JS `parseFloat` applied to an arbitrary value (the value
is first coerced to a string; numbers round-trip, non-numeric strings and all
other values used on this page give `NaN`, modelled as `none`). -/
def jsParseFloat : JSVal → Option ℚ
  | .num q => some q
  | .str s => parseFloatStr s
  | _ => none

/-- The `NaN`-aware strict-less-than of JS: any comparison against `NaN`
(`none`) is false. -/
def nanLt (x : Option ℚ) (c : ℚ) : Bool :=
  match x with
  | none => false
  | some q => decide (q < c)

/-- Embeds `getThreatBadgeClass` (script.js lines 524–532): a falsy score
returns `'badge-info'`, otherwise the score is run through `parseFloat` and
classified by the `< 0.001 / < 0.01 / < 0.1` cut points. -/
def getThreatBadgeClass (score : JSVal) : String :=
  if jsFalsy score then "badge-info"
  else
    let numScore := jsParseFloat score
    if nanLt numScore (1 / 1000) then "badge-success"
    else if nanLt numScore (1 / 100) then "badge-info"
    else if nanLt numScore (1 / 10) then "badge-warning"
    else "badge-danger"

/-- The argument the modal renderer passes to `getThreatBadgeClass`
(script.js lines 886–888 and 934–936): `data.company.abuser_score || '未知'`. -/
def modalAbuserScoreArg (abuser_score : JSVal) : JSVal :=
  jsOr abuser_score (JSVal.str "未知")

/-- Security flag fields collected by `showIpDetailModal` (script.js lines
622–629) from the lookup payload; a field absent from the payload is the JS
`undefined`. -/
structure SecurityFlags where
  is_crawler : JSVal := JSVal.undef
  is_proxy : JSVal := JSVal.undef
  is_vpn : JSVal := JSVal.undef
  is_tor : JSVal := JSVal.undef
  is_abuser : JSVal := JSVal.undef
  is_bogon : JSVal := JSVal.undef

/-- The `riskFlags` array built in `calculateAbuseScore` (script.js lines
548–555). -/
def riskFlags (f : SecurityFlags) : List JSVal :=
  [f.is_crawler, f.is_proxy, f.is_vpn, f.is_tor, f.is_abuser, f.is_bogon]

/-- The `riskCount` of `calculateAbuseScore` (script.js line 558): the number
of risk flags strictly equal to boolean `true`. -/
def strictTrueCount (f : SecurityFlags) : Nat :=
  ((riskFlags f).filter strictTrue).length

/-- Normalization applied by `calculateAbuseScore` to each of its two score
arguments (script.js lines 537–541): a falsy or `'未知'` input is replaced by
the number `0`, then `parseFloat(x) || 0` yields the numeric value (with the
`NaN` of a non-numeric input degrading to `0`). -/
def normalizeAbuseInput (score : JSVal) : ℚ :=
  let score1 := if jsFalsy score || isUnknownStr score then JSVal.num 0 else score
  (jsParseFloat score1).getD 0

/-- Embeds `calculateAbuseScore` (script.js lines 535–568): base score
`((company + asn) / 2) * 5`, risk addition `riskCount * 0.15`, returning
`null` (modelled `none`) exactly when both are zero. -/
def calculateAbuseScore (companyScore asnScore : JSVal)
    (securityFlags : SecurityFlags := {}) : Option ℚ :=
  let company := normalizeAbuseInput companyScore
  let asn := normalizeAbuseInput asnScore
  let baseScore := ((company + asn) / 2) * 5
  let riskCount := strictTrueCount securityFlags
  let riskAddition := (riskCount : ℚ) * (15 / 100)
  let finalScore := baseScore + riskAddition
  if baseScore = 0 ∧ riskAddition = 0 then none else some finalScore

/-- Embeds `getAbuseScoreBadgeClass` (script.js lines 571–579): `none` models
the JS `null`/`undefined` percentage. -/
def getAbuseScoreBadgeClass (percentage : Option ℚ) : String :=
  match percentage with
  | none => "badge-info"
  | some p =>
    if p ≥ 100 then "badge-critical"
    else if p ≥ 20 then "badge-high"
    else if p ≥ 5 then "badge-elevated"
    else if p ≥ 1 / 4 then "badge-low"
    else "badge-verylow"

/-- Modelled builtin: `Number.prototype.toFixed(2)` for the non-negative
percentages this page prints — round half up to two decimals and render. -/
def toFixed2 (q : ℚ) : String :=
  let n : Int := ⌊q * 100 + 1 / 2⌋
  let i := n / 100
  let f := (n % 100).toNat
  toString i ++ "." ++ (if f < 10 then "0" else "") ++ toString f

/-- Embeds `formatAbuseScorePercentage` (script.js lines 582–587): a `null`
score renders as the `'未知'` marker, otherwise `score * 100` is printed as a
two-decimal percentage. -/
def formatAbuseScorePercentage (score : Option ℚ) : String :=
  match score with
  | none => "未知"
  | some s => toFixed2 (s * 100) ++ "%"

/-- Score-input domain of the abuse-score claims: a numeric value in `[0, 1]`,
an absent (`undefined`) value, or a string whose `parseFloat` is `NaN` (this
includes the sentinel `'未知'` and the empty string). -/
def claimScoreInput : JSVal → Prop
  | .num q => 0 ≤ q ∧ q ≤ 1
  | .undef => True
  | .str s => parseFloatStr s = none
  | _ => False

/-- Normalized numeric value of a claim-domain score input: the number itself,
`0` for everything else. -/
def claimNormScore : JSVal → ℚ
  | .num q => q
  | _ => 0

/-- Normalized result produced by a provider parser (the `{ip, country, city}`
object built in `fetchIpipData`'s parsers, script.js lines 203–237); field
values are the raw JS values the parser selects. -/
structure NormalizedResult where
  ip : JSVal
  country : JSVal
  city : JSVal

/-- JavaScript property access `base[key]` as a fallible step: access on
`undefined`/`null` throws a `TypeError`; on an object it yields the field or
`undefined`; on the remaining primitives it yields `undefined` (none of the
accessed names is a builtin property). -/
def JSVal.getFieldE : JSVal → String → Except String JSVal
  | .undef, _ => .error "TypeError"
  | .null, _ => .error "TypeError"
  | .obj fields, key =>
      .ok (match fields.find? (fun p => p.1 == key) with
           | some p => p.2
           | none => .undef)
  | _, _ => .ok JSVal.undef

/-- JavaScript numeric index access `base[i]` as a fallible step: access on
`undefined`/`null` throws; arrays index positionally (out of range gives
`undefined`), objects look up the decimal key, strings index characters. -/
def JSVal.getIdxE : JSVal → Nat → Except String JSVal
  | .undef, _ => .error "TypeError"
  | .null, _ => .error "TypeError"
  | .arr elems, i =>
      .ok (match elems.get? i with
           | some v => v
           | none => .undef)
  | .obj fields, i =>
      .ok (match fields.find? (fun p => p.1 == toString i) with
           | some p => p.2
           | none => .undef)
  | .str s, i =>
      .ok (match s.data.get? i with
           | some ch => .str (String.singleton ch)
           | none => .undef)
  | _, _ => .ok JSVal.undef

/-- Parser of the `speedtest.cn` provider (script.js lines 203–212):
requires `data.code === 0` and a truthy `data.data`, otherwise throws. -/
def speedtestParse (data : JSVal) : Except String NormalizedResult := do
  let code ← data.getFieldE "code"
  let dd ← data.getFieldE "data"
  if isNum0 code && !(jsFalsy dd) then
    let ip ← dd.getFieldE "ip"
    let country ← dd.getFieldE "country"
    let city ← dd.getFieldE "city"
    pure { ip := jsOr ip (JSVal.str "未知"),
           country := jsOr country (JSVal.str "未知"),
           city := jsOr city (JSVal.str "未知") }
  else
    throw "数据格式错误"

/-- Parser of the `ipipv.com` provider (script.js lines 217–223): no shape
validation, each field defaulting to `'未知'`. -/
def ipipvParse (data : JSVal) : Except String NormalizedResult := do
  let ip ← data.getFieldE "Ip"
  let country ← data.getFieldE "Country"
  let city ← data.getFieldE "City"
  pure { ip := jsOr ip (JSVal.str "未知"),
         country := jsOr country (JSVal.str "未知"),
         city := jsOr city (JSVal.str "未知") }

/-- Parser of the `ipip.net` provider (script.js lines 228–237): requires
`data.ret === 'ok'` and a truthy `data.data`; country and city come from
`data.data.location[0]` and `[2]`. -/
def ipipNetParse (data : JSVal) : Except String NormalizedResult := do
  let ret ← data.getFieldE "ret"
  let dd ← data.getFieldE "data"
  if isStrOk ret && !(jsFalsy dd) then
    let ip ← dd.getFieldE "ip"
    let loc ← dd.getFieldE "location"
    let l0 ← loc.getIdxE 0
    let l2 ← loc.getIdxE 2
    pure { ip := jsOr ip (JSVal.str "未知"),
           country := jsOr l0 (JSVal.str "未知"),
           city := jsOr l2 (JSVal.str "未知") }
  else
    throw "数据格式错误"

/-- Provider descriptor of the cascade (`apiConfigs` entries, script.js lines
199–239): display name, endpoint URL and response parser. -/
structure ApiConfig where
  name : String
  url : String
  parse : JSVal → Except String NormalizedResult

/-- The ordered provider list of `fetchIpipData` (script.js lines 199–239). -/
def apiConfigs : List ApiConfig :=
  [⟨"speedtest.cn", "https://api-v3.speedtest.cn/ip", speedtestParse⟩,
   ⟨"ipipv.com", "https://myip.ipipv.com/", ipipvParse⟩,
   ⟨"ipip.net", "https://myip.ipip.net/json", ipipNetParse⟩]

/-- Cache-busting request URL built for each provider attempt (script.js
lines 245–249). -/
def cacheBustedUrl (url : String) (timestamp : Nat) : String :=
  url ++ (if url.contains '?' then "&" else "?") ++ "t=" ++ toString timestamp

/-- Outcome of the transport + body-decoding stage of one provider attempt:
`failure` models a rejected `fetch` or a body that is not valid JSON (the
`response.json()` rejection); `payload` carries the decoded JSON value.  The
source never reads the HTTP status (`response.ok` is unused), so a non-2xx
response surfaces here only through its body. -/
inductive FetchOutcome where
  | failure
  | payload (data : JSVal)

/-- One provider attempt of the cascade (the `try` body, script.js lines
243–269): a transport failure or any parser-thrown error is an `error`. -/
def attemptProvider (cfg : ApiConfig) (resp : FetchOutcome) : Except String NormalizedResult :=
  match resp with
  | .failure => .error "fetch failed"
  | .payload data => cfg.parse data

/-- Content of one display cell of a network card: a value assigned through
`textContent`, or the inline `<span class="error">加载失败</span>` marker
assigned through `innerHTML` on terminal failure. -/
inductive CellContent where
  | text (v : JSVal)
  | errorHtml

/-- Display state of the domestic-test card written by `fetchIpipData`:
the three cells, the status-indicator class, and the provider name shown in
the card title (`none` = original title). -/
structure IpipCardState where
  ip : CellContent
  country : CellContent
  city : CellContent
  status : String
  titleApi : Option String

/-- Terminal-failure state written when every provider fails (script.js lines
276–282): error marker in the IP cell, country and city cleared to the empty
string, status indicator `error`; the title is left as it was. -/
def cascadeErrorState (titleApi : Option String) : IpipCardState :=
  { ip := .errorHtml, country := .text (JSVal.str ""), city := .text (JSVal.str ""),
    status := "error", titleApi := titleApi }

/-- The provider cascade loop of `fetchIpipData` (script.js lines 242–282),
run against the attempt outcome attached to each provider.  Returns the final
card state, the list of providers actually contacted (in order), and the
number of times the all-failed terminal block ran. -/
def cascadeRun (ps : List (ApiConfig × FetchOutcome)) (st : IpipCardState) :
    IpipCardState × List String × Nat :=
  match ps with
  | [] => (cascadeErrorState st.titleApi, [], 1)
  | (cfg, resp) :: rest =>
    match attemptProvider cfg resp with
    | .ok result =>
        ({ ip := .text result.ip, country := .text result.country, city := .text result.city,
           status := "success", titleApi := some cfg.name }, [cfg.name], 0)
    | .error _ =>
        ((cascadeRun rest st).1, cfg.name :: (cascadeRun rest st).2.1, (cascadeRun rest st).2.2)

/-- Embeds `fetchIpipData` (script.js lines 192–283): set the loading status,
then run the cascade over `apiConfigs`, each provider paired with the outcome
of fetching its endpoint. -/
def fetchIpipDataRun (env : ApiConfig → FetchOutcome) (st : IpipCardState) :
    IpipCardState × List String × Nat :=
  cascadeRun (apiConfigs.map (fun cfg => (cfg, env cfg))) { st with status := "loading" }

/-- Final card state of `fetchIpipData`. -/
def fetchIpipData (env : ApiConfig → FetchOutcome) (st : IpipCardState) : IpipCardState :=
  (fetchIpipDataRun env st).1

/-- The card state as rendered before any fetch resolves. -/
def initialIpipState : IpipCardState :=
  { ip := .text (JSVal.str "加载中..."), country := .text (JSVal.str "加载中..."),
    city := .text (JSVal.str "加载中..."), status := "loading", titleApi := none }

/-- Modelled builtin: JS number-to-string coercion, exact for the integers
this page interpolates (ASN numbers); non-integral rationals are rendered in
`num/den` form, a detail no theorem below depends on. -/
def jsNumToString (q : ℚ) : String :=
  if q.den = 1 then toString q.num else toString q

/-- Modelled builtin: JS string coercion as used by the template literal in
`fetchEdgeOneData`; the interpolated values there are numbers and strings
(an array never reaches this template, so its JS element-joining coercion is
elided). -/
def jsToString : JSVal → String
  | .undef => "undefined"
  | .null => "null"
  | .bool true => "true"
  | .bool false => "false"
  | .num q => jsNumToString q
  | .str s => s
  | .arr _ => ""
  | .obj _ => "[object Object]"

/-- The three values a single-provider fetch renders into its card's cells. -/
structure CardView where
  ip : JSVal
  country : JSVal
  city : JSVal

/-- Display state of a single-provider network card. -/
structure CardState where
  ip : CellContent
  country : CellContent
  city : CellContent
  status : String

/-- Catch-block state shared by the three single-provider fetchers (script.js
lines 301–308, 329–336, 366–373): error marker in the IP cell, country and
city cleared, status `error`. -/
def errorCardState : CardState :=
  { ip := .errorHtml, country := .text (JSVal.str ""), city := .text (JSVal.str ""),
    status := "error" }

/-- Transport + JSON stage shared by the fetchers: a rejected fetch or
non-JSON body is a thrown error. -/
def getPayload : FetchOutcome → Except String JSVal
  | .failure => .error "fetch failed"
  | .payload data => .ok data

/-- The `try` body of `fetchEdgeOneData` (script.js lines 290–300):
`data.ip || '未知'`, `data.location.country_code || '未知'`, and the template
string built from `data.asn.asn` and `data.asn.org` (always truthy, so its
`|| '未知'` fallback is dead).  A missing `location` or `asn` section makes a
property access throw. -/
def fetchEdgeOneBody (resp : FetchOutcome) : Except String CardView := do
  let data ← getPayload resp
  let ip ← data.getFieldE "ip"
  let loc ← data.getFieldE "location"
  let cc ← loc.getFieldE "country_code"
  let asnObj ← data.getFieldE "asn"
  let asnNum ← asnObj.getFieldE "asn"
  let asnOrg ← asnObj.getFieldE "org"
  pure { ip := jsOr ip (JSVal.str "未知"),
         country := jsOr cc (JSVal.str "未知"),
         city := jsOr (JSVal.str ("AS" ++ jsToString asnNum ++ " " ++ jsToString asnOrg))
                  (JSVal.str "未知") }

/-- Embeds `fetchEdgeOneData` (script.js lines 288–309): any throw in the body
is caught and rendered as the error card state. -/
def fetchEdgeOneData (resp : FetchOutcome) : CardState :=
  match fetchEdgeOneBody resp with
  | .ok v => { ip := .text v.ip, country := .text v.country, city := .text v.city,
               status := "success" }
  | .error _ => errorCardState

/-- The `try` body of `fetchCloudFlareData` (script.js lines 316–328). -/
def fetchCloudFlareBody (resp : FetchOutcome) : Except String CardView := do
  let data ← getPayload resp
  let ip ← data.getFieldE "ip"
  let country ← data.getFieldE "country"
  let org ← data.getFieldE "org"
  pure { ip := jsOr ip (JSVal.str "未知"),
         country := jsOr country (JSVal.str "未知"),
         city := jsOr org (JSVal.str "未知") }

/-- Embeds `fetchCloudFlareData` (script.js lines 314–337). -/
def fetchCloudFlareData (resp : FetchOutcome) : CardState :=
  match fetchCloudFlareBody resp with
  | .ok v => { ip := .text v.ip, country := .text v.country, city := .text v.city,
               status := "success" }
  | .error _ => errorCardState

/-- The key/value pairs parsed from the `cdn-cgi/trace` text body (script.js
lines 353–359): each line is split on `=`, the first two parts are kept when
both are non-empty, and both are trimmed.  Later lines with the same key
overwrite earlier ones (modelled by `traceGet` taking the last binding). -/
def traceLines (text : String) : List (String × String) :=
  (text.splitOn "\n").foldl
    (fun acc line =>
      match line.splitOn "=" with
      | key :: value :: _ =>
        if key ≠ "" ∧ value ≠ "" then acc ++ [(key.trim, value.trim)] else acc
      | _ => acc)
    []

/-- Field read `data[k]` on the object built from the trace text: the last
binding wins, a missing key is `undefined`. -/
def traceGet (kvs : List (String × String)) (k : String) : JSVal :=
  match kvs.reverse.find? (fun p => p.1 == k) with
  | some p => .str p.2
  | none => JSVal.undef

/-- Embeds `fetchTwitterData` (script.js lines 342–374): the body is text, not
JSON; its parsing never throws, so only a transport failure reaches the catch
block.  Note the city cell falls back to `''`, not `'未知'`. -/
def fetchTwitterData (resp : Except Unit String) : CardState :=
  match resp with
  | .error _ => errorCardState
  | .ok text =>
    let kvs := traceLines text
    { ip := .text (jsOr (traceGet kvs "ip") (JSVal.str "未知")),
      country := .text (jsOr (traceGet kvs "loc") (JSVal.str "未知")),
      city := .text (jsOr (traceGet kvs "colo") (JSVal.str "")),
      status := "success" }

/-- Responses observed by one run of `loadNetworkInfo`: the domestic cascade's
per-provider outcomes and one outcome for each of the three single-provider
fetches. -/
structure NetEnv where
  ipip : ApiConfig → FetchOutcome
  edgeone : FetchOutcome
  cf : FetchOutcome
  twitter : Except Unit String

/-- Page state touched by `loadNetworkInfo`: the four network cards and
whether `markIpAsClickable` has run. -/
structure PageState where
  ipipCard : IpipCardState
  edgeoneCard : CardState
  cfCard : CardState
  twitterCard : CardState
  clickableMarked : Bool

/-- Embeds `loadNetworkInfo` (script.js lines 402–415): when the card
container exists, all four fetchers run and settle (each is total — every
internal failure is caught inside it), the `Promise.all` join waits for all
four regardless of individual outcome, and `markIpAsClickable` runs after
the join. -/
def loadNetworkInfo (env : NetEnv) (st : PageState) (containerPresent : Bool) : PageState :=
  if containerPresent then
    { ipipCard := fetchIpipData env.ipip st.ipipCard,
      edgeoneCard := fetchEdgeOneData env.edgeone,
      cfCard := fetchCloudFlareData env.cf,
      twitterCard := fetchTwitterData env.twitter,
      clickableMarked := true }
  else st

/-- The wildcard sanitization of `fetchAndShowIpDetails` (script.js line 466):
`ipText.replace(/\*/g, '0')` — a global single-character replacement, i.e. a
map over the characters of the clicked text. -/
def sanitizeIp (s : String) : String :=
  ⟨s.data.map (fun c => if c = '*' then '0' else c)⟩

/-- The detail-lookup request URL (script.js lines 474–476), parameterized by
the sanitized IP. -/
def detailLookupUrl (ipText : String) : String :=
  "https://api.ipapi.cmliussss.net/?ip=" ++ sanitizeIp ipText

/-- Flag set in which every field is replaced by the boolean saying whether it
was strictly `true`; used to state that only strict `true` contributes to the
risk count. -/
def boolizeFlags (f : SecurityFlags) : SecurityFlags :=
  { is_crawler := JSVal.bool (strictTrue f.is_crawler),
    is_proxy := JSVal.bool (strictTrue f.is_proxy),
    is_vpn := JSVal.bool (strictTrue f.is_vpn),
    is_tor := JSVal.bool (strictTrue f.is_tor),
    is_abuser := JSVal.bool (strictTrue f.is_abuser),
    is_bogon := JSVal.bool (strictTrue f.is_bogon) }

theorem claimNormScore_nonneg (v : JSVal) (hv : claimScoreInput v) : 0 ≤ claimNormScore v := by
  cases v with
  | num q => exact hv.1
  | undef => exact le_refl 0
  | str s => exact le_refl 0
  | null => exact False.elim hv
  | bool b => exact False.elim hv
  | arr elems => exact False.elim hv
  | obj fields => exact False.elim hv

theorem normalizeAbuseInput_eq_claim (v : JSVal) (hv : claimScoreInput v) :
    normalizeAbuseInput v = claimNormScore v := by
  cases v with
  | num q =>
    by_cases hq : q = 0
    · subst hq
      simp [normalizeAbuseInput, jsFalsy, isUnknownStr, jsParseFloat, claimNormScore]
    · simp [normalizeAbuseInput, jsFalsy, isUnknownStr, jsParseFloat, claimNormScore, hq]
  | undef =>
    simp [normalizeAbuseInput, jsFalsy, jsParseFloat, claimNormScore]
  | str s =>
    have hs : parseFloatStr s = none := hv
    by_cases h1 : s = ""
    · subst h1
      simp [normalizeAbuseInput, jsFalsy, isUnknownStr, jsParseFloat, claimNormScore]
    · by_cases h2 : s = "未知"
      · subst h2
        simp [normalizeAbuseInput, jsFalsy, isUnknownStr, jsParseFloat, claimNormScore]
      · simp [normalizeAbuseInput, jsFalsy, isUnknownStr, jsParseFloat, claimNormScore, h1, h2, hs]
  | null => exact False.elim hv
  | bool b => exact False.elim hv
  | arr elems => exact False.elim hv
  | obj fields => exact False.elim hv

theorem calculateAbuseScore_closed_form (c a : JSVal) (f : SecurityFlags)
    (hc : claimScoreInput c) (ha : claimScoreInput a) :
    calculateAbuseScore c a f =
      if claimNormScore c = 0 ∧ claimNormScore a = 0 ∧ strictTrueCount f = 0 then none
      else
        some (((claimNormScore c + claimNormScore a) / 2) * 5 +
          (strictTrueCount f : ℚ) * (15 / 100)) := by
  have hcn := normalizeAbuseInput_eq_claim c hc
  have han := normalizeAbuseInput_eq_claim a ha
  have hc0 := claimNormScore_nonneg c hc
  have ha0 := claimNormScore_nonneg a ha
  have hiff : (((claimNormScore c + claimNormScore a) / 2) * 5 = 0 ∧
      (strictTrueCount f : ℚ) * (15 / 100) = 0) ↔
      (claimNormScore c = 0 ∧ claimNormScore a = 0 ∧ strictTrueCount f = 0) := by
    constructor
    · rintro ⟨h1, h2⟩
      have hcz : claimNormScore c = 0 := by linarith
      have haz : claimNormScore a = 0 := by linarith
      have hk : (strictTrueCount f : ℚ) = 0 := by linarith
      exact ⟨hcz, haz, by exact_mod_cast hk⟩
    · rintro ⟨h1, h2, h3⟩
      rw [h1, h2, h3]
      norm_num
  simp only [calculateAbuseScore, hcn, han]
  rw [if_congr hiff rfl rfl]

/-- C1: For every pair of score inputs (numeric in `[0, 1]`, absent, or a
non-numeric string such as the sentinel `'未知'` — all non-numeric forms
normalizing to `0`) and every flag set, `calculateAbuseScore` returns
`((companyScore + asnScore) / 2) * 5 + 0.15 * (number of strictly-true
flags)`, except in the null case (both normalized scores `0` and no flag
strictly `true`); it is a total function, so no input raises an error. -/
theorem abuseScore_formula_spec (c a : JSVal) (f : SecurityFlags)
    (hc : claimScoreInput c) (ha : claimScoreInput a) :
    calculateAbuseScore c a f =
      if claimNormScore c = 0 ∧ claimNormScore a = 0 ∧ strictTrueCount f = 0 then none
      else
        some (((claimNormScore c + claimNormScore a) / 2) * 5 +
          (strictTrueCount f : ℚ) * (15 / 100)) :=
  calculateAbuseScore_closed_form c a f hc ha

theorem abuseScore_formula_spec_witness :
    calculateAbuseScore (JSVal.num (1 / 2)) (JSVal.str "未知")
      { is_vpn := JSVal.bool true } = some (7 / 5) := by
  have h := abuseScore_formula_spec (JSVal.num (1 / 2)) (JSVal.str "未知")
    { is_vpn := JSVal.bool true }
    (show (0 : ℚ) ≤ 1 / 2 ∧ (1 : ℚ) / 2 ≤ 1 by norm_num)
    (show parseFloatStr "未知" = none from by decide)
  rw [h, show strictTrueCount { is_vpn := JSVal.bool true } = 1 from rfl]
  norm_num [claimNormScore]

/-- C2: For every claim-domain input, `calculateAbuseScore` returns `null`
(`none`) iff both normalized scores are `0` (raw inputs absent, `'未知'`,
non-numeric, or zero) and no flag is strictly `true`; a `null` score is
rendered by `formatAbuseScorePercentage` as the `'未知'` marker (not a `0%`
value), and every non-`null` result is `≥ 0`. -/
theorem abuseScore_null_iff (c a : JSVal) (f : SecurityFlags)
    (hc : claimScoreInput c) (ha : claimScoreInput a) :
    (calculateAbuseScore c a f = none ↔
      (claimNormScore c = 0 ∧ claimNormScore a = 0 ∧ strictTrueCount f = 0))
    ∧ formatAbuseScorePercentage none = "未知"
    ∧ (∀ q : ℚ, calculateAbuseScore c a f = some q → 0 ≤ q) := by
  have h := calculateAbuseScore_closed_form c a f hc ha
  have hc0 := claimNormScore_nonneg c hc
  have ha0 := claimNormScore_nonneg a ha
  refine ⟨?_, rfl, ?_⟩
  · rw [h]
    by_cases hcond : claimNormScore c = 0 ∧ claimNormScore a = 0 ∧ strictTrueCount f = 0
    · simp [hcond]
    · simp [hcond]
  · intro q hq
    rw [h] at hq
    by_cases hcond : claimNormScore c = 0 ∧ claimNormScore a = 0 ∧ strictTrueCount f = 0
    · simp [hcond] at hq
    · simp only [if_neg hcond, Option.some.injEq] at hq
      have hk : (0 : ℚ) ≤ (strictTrueCount f : ℚ) := Nat.cast_nonneg _
      linarith

theorem abuseScore_null_iff_witness :
    calculateAbuseScore JSVal.undef JSVal.undef {} = none ∧
      formatAbuseScorePercentage none = "未知" := by
  have h := abuseScore_null_iff JSVal.undef JSVal.undef {} True.intro True.intro
  exact ⟨h.1.mpr ⟨rfl, rfl, rfl⟩, h.2.1⟩

/-- C3 counterexample: the claim fails on the code at two concrete inputs.
Through the modal renderer's form (`abuser_score || '未知'`) an absent score
becomes the truthy string `'未知'`, whose `parseFloat` is `NaN`, so every
`<` comparison is false and `getThreatBadgeClass` returns `'badge-danger'`,
not the claimed `'badge-info'`; and the score `0`, although `< 0.001`, is
falsy and returns `'badge-info'`, not the claimed `'badge-success'`. -/
theorem threatBadge_claim_counterexample :
    (getThreatBadgeClass (modalAbuserScoreArg JSVal.undef) = "badge-danger"
      ∧ "badge-danger" ≠ "badge-info")
    ∧ ((0 : ℚ) < 1 / 1000
      ∧ getThreatBadgeClass (JSVal.num 0) = "badge-info"
      ∧ "badge-info" ≠ "badge-success") :=
  ⟨⟨rfl, by decide⟩, by norm_num, rfl, by decide⟩

/-- C3 amended: applied directly, a falsy score (absent or `0`) maps to
`'info'`; a truthy numeric score `q` maps by the cut points `q < 0.001 →
'success'`, `q < 0.01 → 'info'`, `q < 0.1 → 'warning'`, else `'danger'`; a
truthy non-numeric score (`parseFloat` gives `NaN`) maps to `'danger'`.  The
modal renderer substitutes `'未知'` for an absent or zero `abuser_score`, so
via that form an absent score maps to `'badge-danger'`, not `'badge-info'`. -/
theorem threatBadge_amended_spec (v : JSVal) (q : ℚ) :
    getThreatBadgeClass JSVal.undef = "badge-info"
    ∧ getThreatBadgeClass (JSVal.num 0) = "badge-info"
    ∧ (0 < q → getThreatBadgeClass (JSVal.num q) =
        (if q < 1 / 1000 then "badge-success"
         else if q < 1 / 100 then "badge-info"
         else if q < 1 / 10 then "badge-warning"
         else "badge-danger"))
    ∧ (jsFalsy v = true → modalAbuserScoreArg v = JSVal.str "未知")
    ∧ (∀ s : String, s ≠ "" → parseFloatStr s = none →
        getThreatBadgeClass (JSVal.str s) = "badge-danger")
    ∧ getThreatBadgeClass (modalAbuserScoreArg JSVal.undef) = "badge-danger" := by
  refine ⟨rfl, rfl, ?_, ?_, ?_, rfl⟩
  · intro hq
    have hne : ¬ (q = 0) := ne_of_gt hq
    simp [getThreatBadgeClass, jsFalsy, hne, jsParseFloat, nanLt]
  · intro hv
    simp [modalAbuserScoreArg, jsOr, hv]
  · intro s hs hpf
    simp [getThreatBadgeClass, jsFalsy, hs, jsParseFloat, hpf, nanLt]

theorem threatBadge_amended_spec_witness :
    getThreatBadgeClass (JSVal.num (1 / 20)) = "badge-warning"
    ∧ modalAbuserScoreArg JSVal.null = JSVal.str "未知"
    ∧ getThreatBadgeClass (JSVal.str "abc") = "badge-danger" := by
  have h := threatBadge_amended_spec JSVal.null (1 / 20)
  refine ⟨?_, h.2.2.2.1 rfl, h.2.2.2.2.1 "abc" (by decide) (by decide)⟩
  have h3 := h.2.2.1 (by norm_num)
  rw [h3]
  norm_num

/-- C4: For every non-null composite percentage, `getAbuseScoreBadgeClass`
buckets by inclusive lower bounds tested in descending order (first match
wins): `≥ 100 → 'critical'`, `≥ 20 → 'high'`, `≥ 5 → 'elevated'`,
`≥ 0.25 → 'low'`, else `'very low'`; `calculateAbuseScore(0, 0, {is_vpn:
true})` is `0.15`, whose `15%` falls in `'elevated'`; a `null`/`undefined`
percentage maps to `'info'`. -/
theorem abuseBadge_thresholds_spec (p : ℚ) :
    getAbuseScoreBadgeClass none = "badge-info"
    ∧ (100 ≤ p → getAbuseScoreBadgeClass (some p) = "badge-critical")
    ∧ (20 ≤ p → p < 100 → getAbuseScoreBadgeClass (some p) = "badge-high")
    ∧ (5 ≤ p → p < 20 → getAbuseScoreBadgeClass (some p) = "badge-elevated")
    ∧ (1 / 4 ≤ p → p < 5 → getAbuseScoreBadgeClass (some p) = "badge-low")
    ∧ (p < 1 / 4 → getAbuseScoreBadgeClass (some p) = "badge-verylow")
    ∧ calculateAbuseScore (JSVal.num 0) (JSVal.num 0) { is_vpn := JSVal.bool true }
        = some (15 / 100)
    ∧ getAbuseScoreBadgeClass (some ((15 / 100) * 100)) = "badge-elevated" := by
  refine ⟨rfl, ?_, ?_, ?_, ?_, ?_, ?_, ?_⟩
  · intro h1
    simp only [getAbuseScoreBadgeClass]
    rw [if_pos h1]
  · intro h1 h2
    simp only [getAbuseScoreBadgeClass]
    split_ifs <;> first | rfl | linarith
  · intro h1 h2
    simp only [getAbuseScoreBadgeClass]
    split_ifs <;> first | rfl | linarith
  · intro h1 h2
    simp only [getAbuseScoreBadgeClass]
    split_ifs <;> first | rfl | linarith
  · intro h1
    simp only [getAbuseScoreBadgeClass]
    split_ifs <;> first | rfl | linarith
  · norm_num [calculateAbuseScore, normalizeAbuseInput, strictTrueCount, riskFlags,
      strictTrue, jsFalsy, isUnknownStr, jsParseFloat]
  · norm_num [getAbuseScoreBadgeClass]

theorem abuseBadge_thresholds_spec_witness :
    getAbuseScoreBadgeClass (some 5) = "badge-elevated"
    ∧ getAbuseScoreBadgeClass (some 20) = "badge-high"
    ∧ getAbuseScoreBadgeClass (some 100) = "badge-critical"
    ∧ getAbuseScoreBadgeClass (some 15) = "badge-elevated" :=
  ⟨(abuseBadge_thresholds_spec 5).2.2.2.1 (by norm_num) (by norm_num),
   (abuseBadge_thresholds_spec 20).2.2.1 (by norm_num) (by norm_num),
   (abuseBadge_thresholds_spec 100).2.1 (by norm_num),
   (abuseBadge_thresholds_spec 15).2.2.2.1 (by norm_num) (by norm_num)⟩

/-- C10: only flags strictly equal to boolean `true` contribute to the risk
count: replacing every flag by the boolean saying whether it was strictly
`true` leaves `calculateAbuseScore` unchanged, so a truthy non-boolean flag
(`1`, `'true'`) or an absent flag contributes `0`, exactly as `false` does;
concretely, with both scores `0`, `is_vpn = 1` and `is_vpn = 'true'` still
give the null result while `is_vpn = true` gives `0.15`. -/
theorem riskFlags_strict_eq (c a : JSVal) (f : SecurityFlags) :
    calculateAbuseScore c a f = calculateAbuseScore c a (boolizeFlags f)
    ∧ calculateAbuseScore (JSVal.num 0) (JSVal.num 0) { is_vpn := JSVal.num 1 } = none
    ∧ calculateAbuseScore (JSVal.num 0) (JSVal.num 0) { is_vpn := JSVal.str "true" } = none
    ∧ calculateAbuseScore (JSVal.num 0) (JSVal.num 0) { is_vpn := JSVal.bool true }
        = some (15 / 100) := by
  have hcnt : strictTrueCount (boolizeFlags f) = strictTrueCount f := by
    have hmap : riskFlags (boolizeFlags f) =
        (riskFlags f).map (fun w => JSVal.bool (strictTrue w)) := rfl
    have hcomp : (strictTrue ∘ fun w => JSVal.bool (strictTrue w)) = strictTrue := by
      funext w
      simp only [Function.comp_apply]
      cases hw : strictTrue w
      · rfl
      · rfl
    rw [strictTrueCount, strictTrueCount, hmap, List.filter_map, List.length_map, hcomp]
  refine ⟨?_, ?_, ?_, ?_⟩
  · simp [calculateAbuseScore, hcnt]
  · norm_num [calculateAbuseScore, normalizeAbuseInput, strictTrueCount, riskFlags,
      strictTrue, jsFalsy, isUnknownStr, jsParseFloat]
  · norm_num [calculateAbuseScore, normalizeAbuseInput, strictTrueCount, riskFlags,
      strictTrue, jsFalsy, isUnknownStr, jsParseFloat]
  · norm_num [calculateAbuseScore, normalizeAbuseInput, strictTrueCount, riskFlags,
      strictTrue, jsFalsy, isUnknownStr, jsParseFloat]

/-- C5: For every ordered provider list (each provider paired with its attempt
outcome), if every provider before position `i` fails (transport failure,
non-JSON body, or parser-thrown error) and provider `i`'s attempt parses
successfully, the cascade renders provider `i`'s NormalizedResult tagged
with provider `i`'s name, contacts exactly the providers `1..i` once each in
order (nothing beyond `i`, no retries), and never enters the terminal failure
block. -/
theorem cascade_first_success (pre post : List (ApiConfig × FetchOutcome))
    (cfg : ApiConfig) (resp : FetchOutcome) (r : NormalizedResult) (st : IpipCardState)
    (hpre : ∀ pr ∈ pre, ∃ e, attemptProvider pr.1 pr.2 = Except.error e)
    (hcfg : attemptProvider cfg resp = Except.ok r) :
    cascadeRun (pre ++ (cfg, resp) :: post) st =
      ({ ip := .text r.ip, country := .text r.country, city := .text r.city,
         status := "success", titleApi := some cfg.name },
       pre.map (fun pr => pr.1.name) ++ [cfg.name], 0) := by
  induction pre with
  | nil =>
    simp [cascadeRun, hcfg]
  | cons hd tl ih =>
    obtain ⟨c1, o1⟩ := hd
    obtain ⟨e, he⟩ := hpre (c1, o1) (List.mem_cons_self _ _)
    have htl : ∀ pr ∈ tl, ∃ e2, attemptProvider pr.1 pr.2 = Except.error e2 :=
      fun pr hpr => hpre pr (List.mem_cons_of_mem _ hpr)
    have ih2 := ih htl
    simp only [List.cons_append, cascadeRun, List.append_eq, he, List.map_cons]
    rw [ih2]

theorem cascade_first_success_witness :
    cascadeRun
      [(⟨"speedtest.cn", "https://api-v3.speedtest.cn/ip", speedtestParse⟩,
          FetchOutcome.failure),
       (⟨"ipipv.com", "https://myip.ipipv.com/", ipipvParse⟩,
          FetchOutcome.payload (JSVal.obj
            [("Ip", JSVal.str "1.2.3.4"), ("Country", JSVal.str "中国"),
             ("City", JSVal.str "北京")])),
       (⟨"ipip.net", "https://myip.ipip.net/json", ipipNetParse⟩,
          FetchOutcome.failure)]
      initialIpipState =
      ({ ip := .text (JSVal.str "1.2.3.4"), country := .text (JSVal.str "中国"),
         city := .text (JSVal.str "北京"), status := "success",
         titleApi := some "ipipv.com" },
       ["speedtest.cn", "ipipv.com"], 0) := by
  have h := cascade_first_success
    [(⟨"speedtest.cn", "https://api-v3.speedtest.cn/ip", speedtestParse⟩,
        FetchOutcome.failure)]
    [(⟨"ipip.net", "https://myip.ipip.net/json", ipipNetParse⟩, FetchOutcome.failure)]
    ⟨"ipipv.com", "https://myip.ipipv.com/", ipipvParse⟩
    (FetchOutcome.payload (JSVal.obj
      [("Ip", JSVal.str "1.2.3.4"), ("Country", JSVal.str "中国"),
       ("City", JSVal.str "北京")]))
    ⟨JSVal.str "1.2.3.4", JSVal.str "中国", JSVal.str "北京"⟩
    initialIpipState
    (by
      intro pr hpr
      rw [List.mem_singleton] at hpr
      subst hpr
      exact ⟨"fetch failed", rfl⟩)
    (by rfl)
  simpa using h

/-- C6: If every provider in the cascade fails, the terminal failure block
runs exactly once: the inline error marker replaces the IP value, the
dependent country and city cells are cleared to the empty string, the status
indicator is set to `error` (so neither a partial success nor a stale
`loading` state is left), and every provider was contacted exactly once. -/
theorem cascade_all_fail (ps : List (ApiConfig × FetchOutcome)) (st : IpipCardState)
    (h : ∀ pr ∈ ps, ∃ e, attemptProvider pr.1 pr.2 = Except.error e) :
    cascadeRun ps st = (cascadeErrorState st.titleApi, ps.map (fun pr => pr.1.name), 1) := by
  induction ps with
  | nil => simp [cascadeRun]
  | cons hd tl ih =>
    obtain ⟨c1, o1⟩ := hd
    obtain ⟨e, he⟩ := h (c1, o1) (List.mem_cons_self _ _)
    have htl : ∀ pr ∈ tl, ∃ e2, attemptProvider pr.1 pr.2 = Except.error e2 :=
      fun pr hpr => h pr (List.mem_cons_of_mem _ hpr)
    have ih2 := ih htl
    simp only [cascadeRun, List.append_eq, he, List.map_cons]
    rw [ih2]

theorem cascade_all_fail_witness :
    fetchIpipDataRun (fun _ => FetchOutcome.failure) initialIpipState =
      (cascadeErrorState none, ["speedtest.cn", "ipipv.com", "ipip.net"], 1) := by
  have h := cascade_all_fail
    (apiConfigs.map (fun cfg => (cfg, (fun _ => FetchOutcome.failure) cfg)))
    { initialIpipState with status := "loading" }
    (by
      intro pr hpr
      rw [List.mem_map] at hpr
      obtain ⟨cfg, _, hcfg⟩ := hpr
      rw [← hcfg]
      exact ⟨"fetch failed", rfl⟩)
  simpa [fetchIpipDataRun, apiConfigs, initialIpipState] using h

theorem cascadeRun_title_agnostic (ps : List (ApiConfig × FetchOutcome))
    (s1 s2 : IpipCardState) (h : s1.titleApi = s2.titleApi) :
    cascadeRun ps s1 = cascadeRun ps s2 := by
  induction ps with
  | nil => simp [cascadeRun, cascadeErrorState, h]
  | cons hd tl ih =>
    obtain ⟨c1, o1⟩ := hd
    cases ha : attemptProvider c1 o1 with
    | ok r => simp [cascadeRun, ha]
    | error e => simp [cascadeRun, ha, ih]

theorem cascadeRun_idem (ps : List (ApiConfig × FetchOutcome)) (st : IpipCardState) :
    (cascadeRun ps { (cascadeRun ps st).1 with status := "loading" }).1 =
      (cascadeRun ps st).1 := by
  induction ps with
  | nil => rfl
  | cons hd tl ih =>
    obtain ⟨c1, o1⟩ := hd
    cases ha : attemptProvider c1 o1 with
    | ok r => simp [cascadeRun, ha]
    | error e =>
      simp only [cascadeRun, ha]
      exact ih

theorem cascadeRun_cells_agnostic (ps : List (ApiConfig × FetchOutcome))
    (s1 s2 : IpipCardState) :
    ((cascadeRun ps s1).1).ip = ((cascadeRun ps s2).1).ip
    ∧ ((cascadeRun ps s1).1).country = ((cascadeRun ps s2).1).country
    ∧ ((cascadeRun ps s1).1).city = ((cascadeRun ps s2).1).city
    ∧ ((cascadeRun ps s1).1).status = ((cascadeRun ps s2).1).status := by
  induction ps with
  | nil => exact ⟨rfl, rfl, rfl, rfl⟩
  | cons hd tl ih =>
    obtain ⟨c1, o1⟩ := hd
    cases ha : attemptProvider c1 o1 with
    | ok r => simp [cascadeRun, ha]
    | error e =>
      simp only [cascadeRun, ha]
      exact ih

/-- C9: The cascade resolver is deterministic and idempotent: it reads no
state it previously wrote (running `fetchIpipData` a second time, from the
state its first run produced, reproduces that state exactly), and the
rendered cells and status never depend on the incoming card state — the
provider list and parsers are reconstructed afresh inside the call, and the
function of the (provider → outcome) environment is pure. -/
theorem cascade_idempotent (env : ApiConfig → FetchOutcome) (st st2 : IpipCardState) :
    fetchIpipData env (fetchIpipData env st) = fetchIpipData env st
    ∧ (fetchIpipData env st).ip = (fetchIpipData env st2).ip
    ∧ (fetchIpipData env st).country = (fetchIpipData env st2).country
    ∧ (fetchIpipData env st).city = (fetchIpipData env st2).city
    ∧ (fetchIpipData env st).status = (fetchIpipData env st2).status := by
  constructor
  · show (cascadeRun _ { (cascadeRun _ { st with status := "loading" }).1
        with status := "loading" }).1 = _
    exact cascadeRun_idem _ _
  · exact cascadeRun_cells_agnostic _ _ _

theorem cascadeRun_status_settled (ps : List (ApiConfig × FetchOutcome))
    (st : IpipCardState) :
    ((cascadeRun ps st).1).status = "success" ∨ ((cascadeRun ps st).1).status = "error" := by
  induction ps with
  | nil => exact Or.inr rfl
  | cons hd tl ih =>
    obtain ⟨c1, o1⟩ := hd
    cases ha : attemptProvider c1 o1 with
    | ok r => exact Or.inl (by simp [cascadeRun, ha])
    | error e =>
      simp only [cascadeRun, ha]
      exact ih

/-- C7: For every environment (any combination of provider outcomes,
including all-failing ones), each of the four fetchers settles — every
internal failure is caught, leaving a terminal `success` or `error` status,
never a rejection and never a stale `loading` status — so the
`Promise.all` join of `loadNetworkInfo` always completes and
`markIpAsClickable` runs after all four have settled; each card's outcome is
a function of its own source's responses alone, so one source's failure
neither blocks the others nor short-circuits the join. -/
theorem loadNetworkInfo_settles (env : NetEnv) (st : PageState) :
    (loadNetworkInfo env st true).clickableMarked = true
    ∧ ((loadNetworkInfo env st true).ipipCard.status = "success"
        ∨ (loadNetworkInfo env st true).ipipCard.status = "error")
    ∧ ((loadNetworkInfo env st true).edgeoneCard.status = "success"
        ∨ (loadNetworkInfo env st true).edgeoneCard.status = "error")
    ∧ ((loadNetworkInfo env st true).cfCard.status = "success"
        ∨ (loadNetworkInfo env st true).cfCard.status = "error")
    ∧ ((loadNetworkInfo env st true).twitterCard.status = "success"
        ∨ (loadNetworkInfo env st true).twitterCard.status = "error")
    ∧ (loadNetworkInfo env st true).ipipCard = fetchIpipData env.ipip st.ipipCard
    ∧ (loadNetworkInfo env st true).edgeoneCard = fetchEdgeOneData env.edgeone
    ∧ (loadNetworkInfo env st true).cfCard = fetchCloudFlareData env.cf
    ∧ (loadNetworkInfo env st true).twitterCard = fetchTwitterData env.twitter := by
  refine ⟨rfl, ?_, ?_, ?_, ?_, rfl, rfl, rfl, rfl⟩
  · exact cascadeRun_status_settled _ _
  · show (fetchEdgeOneData env.edgeone).status = "success"
        ∨ (fetchEdgeOneData env.edgeone).status = "error"
    cases hb : fetchEdgeOneBody env.edgeone with
    | ok v =>
      refine Or.inl ?_
      unfold fetchEdgeOneData
      rw [hb]
    | error e =>
      refine Or.inr ?_
      unfold fetchEdgeOneData
      rw [hb]
      rfl
  · show (fetchCloudFlareData env.cf).status = "success"
        ∨ (fetchCloudFlareData env.cf).status = "error"
    cases hb : fetchCloudFlareBody env.cf with
    | ok v =>
      refine Or.inl ?_
      unfold fetchCloudFlareData
      rw [hb]
    | error e =>
      refine Or.inr ?_
      unfold fetchCloudFlareData
      rw [hb]
      rfl
  · show (fetchTwitterData env.twitter).status = "success"
        ∨ (fetchTwitterData env.twitter).status = "error"
    cases ht : env.twitter with
    | ok text => exact Or.inl rfl
    | error e => exact Or.inr rfl

/-- C8: For every clicked IP text, the sanitization replaces every occurrence
of `'*'` (not only the first) with `'0'` and alters no other character — the
result has the same length, is `'*'`-free, character `i` of the result is
character `i` of the input with `'*'` mapped to `'0'` — and the detail-lookup
request URL is built from exactly this sanitized text; concretely
`'1.2.*.4'` becomes `'1.2.0.4'`. -/
theorem sanitizeIp_spec (s : String) (i : Nat) :
    (sanitizeIp s).data[i]? = (s.data[i]?).map (fun c => if c = '*' then '0' else c)
    ∧ '*' ∉ (sanitizeIp s).data
    ∧ (sanitizeIp s).data.length = s.data.length
    ∧ sanitizeIp "1.2.*.4" = "1.2.0.4"
    ∧ detailLookupUrl s = "https://api.ipapi.cmliussss.net/?ip=" ++ sanitizeIp s := by
  refine ⟨?_, ?_, ?_, by decide, rfl⟩
  · show (s.data.map _)[i]? = _
    simp
  · intro hmem
    have hmem2 : '*' ∈ s.data.map (fun c => if c = '*' then '0' else c) := hmem
    rw [List.mem_map] at hmem2
    obtain ⟨c, _, hfc⟩ := hmem2
    by_cases h : c = '*'
    · rw [if_pos h] at hfc
      exact absurd hfc (by decide)
    · rw [if_neg h] at hfc
      exact h hfc
  · show (s.data.map _).length = _
    simp
